import Mathlib

/-!
Verification development for the Azure instance-provisioning port-opening
module (`sky/provision/azure/instance.py`).

The module has two pieces of logic:

* `get_azure_sdk_function client function_name` — resolves an SDK operation
  under either its plain name or the `begin_`-prefixed name, raising an
  `AttributeError` naming both candidates when neither exists;
* `open_ports cluster_name_on_cloud ports provider_config` — for every
  network security group (NSG) in the configured resource group, either
  extends the destination port ranges of an existing rule named
  `sky-ports-<cluster>` or appends a fresh inbound rule at priority
  `max inbound priority + 1`, writing each group back with
  `create_or_update`, and logging (instead of propagating) per-group
  HTTP errors.

The embedding below mirrors the Python source: the per-rule scan loop
(which updates the running inbound-priority maximum before the name check
and breaks on the first name match) becomes the recursive `scanRules`;
the per-group body becomes `process_nsg`; the full call, including the
config-key lookups that can raise before any store interaction and the
per-group try/except around `create_or_update`, becomes `open_ports`,
which also records the sequence of store calls it performs and the
warnings it logs.
-/

/-- A network security rule, with the fields the Python module reads or
writes.  `priority` is an integer; `destination_port_ranges` is the ordered
list of port specifications (e.g. "22", "8080-8090"). -/
structure SecurityRule where
  name : String
  direction : String
  priority : Int
  protocol : String
  access : String
  source_address_prefix : String
  source_port_range : String
  destination_address_prefix : String
  destination_port_ranges : List String
deriving DecidableEq, Repr

/-- A network security group: a name and an ordered list of rules. -/
structure SecurityGroup where
  name : String
  security_rules : List SecurityRule
deriving DecidableEq, Repr

/-- Embedding of `azure.create_security_rule(...)` as used by `open_ports`:
builds a rule from name, priority, protocol, access, direction, source
address prefix, source port range, destination address prefix and
destination port ranges (in the argument order of the call site). -/
def create_security_rule (n : String) (pri : Int) (prot acc dir sap spr dap : String)
    (dpr : List String) : SecurityRule :=
  ⟨n, dir, pri, prot, acc, sap, spr, dap, dpr⟩

/-- The rule name computed by `open_ports`: the f-string interpolation of
`sky-ports-` and `cluster_name_on_cloud`. -/
def sky_ports_rule_name (cluster_name_on_cloud : String) : String :=
  "sky-ports-" ++ cluster_name_on_cloud

/-- The `for rule in nsg.security_rules` loop of `open_ports`: walks the
rules carrying the running `max_inbound_priority` accumulator; each step
first folds the priority of an Inbound rule into the maximum, then tests
the name of the rule; on the first name match it extends that same rule
`destination_port_ranges` with `ports` and breaks.  Returns the (possibly
mutated) rule list, the final accumulator, and the `rule_exist` flag. -/
def scanRules (rule_name : String) (ports : List String) :
    List SecurityRule → Int → (List SecurityRule × Int × Bool)
  | [], maxp => ([], maxp, false)
  | rule :: rest, maxp =>
    if rule.name = rule_name then
      ({ rule with destination_port_ranges := rule.destination_port_ranges ++ ports } :: rest,
        (if rule.direction = "Inbound" then max maxp rule.priority else maxp), true)
    else
      (rule :: (scanRules rule_name ports rest
          (if rule.direction = "Inbound" then max maxp rule.priority else maxp)).1,
        (scanRules rule_name ports rest
          (if rule.direction = "Inbound" then max maxp rule.priority else maxp)).2)

/-- The per-NSG body of `open_ports`: scan the rules (accumulator starts
at 0); if no rule named `rule_name` was found, append a new Tcp/Allow
Inbound rule at priority `max_inbound_priority + 1` with wildcard source
and destination addresses and the requested destination ports. -/
def process_nsg (rule_name : String) (ports : List String) (nsg : SecurityGroup) :
    SecurityGroup :=
  if (scanRules rule_name ports nsg.security_rules 0).2.2 then
    { nsg with security_rules := (scanRules rule_name ports nsg.security_rules 0).1 }
  else
    { nsg with security_rules :=
        (scanRules rule_name ports nsg.security_rules 0).1 ++
          [create_security_rule rule_name
            ((scanRules rule_name ports nsg.security_rules 0).2.1 + 1)
            "Tcp" "Allow" "Inbound" "*" "*" "*" ports] }

/-- The provider config dictionary, restricted to the two keys
`open_ports` reads; `none` models an absent key (whose lookup raises). -/
structure ProviderConfig where
  subscription_id : Option String
  resource_group : Option String
deriving DecidableEq, Repr

/-- Errors `open_ports` can raise to its caller.  A missing config key
raises on the dictionary lookup (the `ConfigurationError` of the spec),
carrying the missing key. -/
inductive OpenPortsError where
  | configurationError : String → OpenPortsError
deriving DecidableEq, Repr

/-- A call made against the security-group store: listing the groups of a
resource group, or a `create_or_update` of one group. -/
inductive StoreCall where
  | listGroups : String → StoreCall
  | createOrUpdate : String → String → StoreCall
deriving DecidableEq, Repr

/-- The remote store: the security groups the `list` call returns, and the
names of the groups whose `create_or_update` call raises a platform HTTP
error (`azure.http_error_exception`). -/
structure Store where
  groups : List SecurityGroup
  failing : List String
deriving DecidableEq, Repr

/-- The observable outcome of an `open_ports` call: the exception
propagated to the caller (if any), the store calls performed in order,
the resulting store contents, and the names of the groups whose update
failed and was logged with `logger.warning`. -/
structure OpenPortsResult where
  error : Option OpenPortsError
  calls : List StoreCall
  groups : List SecurityGroup
  warnings : List String
deriving DecidableEq, Repr

/-- The `for nsg in list_network_security_groups(resource_group)` loop of
`open_ports`: each group is processed by `process_nsg` and written back
with `create_or_update`; when that call raises an HTTP error the store
keeps the old group and a warning naming the group is logged, and the
loop continues.  Returns the final store contents, the `create_or_update`
calls made, and the warnings. -/
def open_ports_loop (rule_name : String) (ports : List String) (rg : String)
    (failing : List String) :
    List SecurityGroup → (List SecurityGroup × List StoreCall × List String)
  | [] => ([], [], [])
  | nsg :: rest =>
    if (process_nsg rule_name ports nsg).name ∈ failing then
      (nsg :: (open_ports_loop rule_name ports rg failing rest).1,
        .createOrUpdate rg (process_nsg rule_name ports nsg).name ::
          (open_ports_loop rule_name ports rg failing rest).2.1,
        (process_nsg rule_name ports nsg).name ::
          (open_ports_loop rule_name ports rg failing rest).2.2)
    else
      (process_nsg rule_name ports nsg :: (open_ports_loop rule_name ports rg failing rest).1,
        .createOrUpdate rg (process_nsg rule_name ports nsg).name ::
          (open_ports_loop rule_name ports rg failing rest).2.1,
        (open_ports_loop rule_name ports rg failing rest).2.2)

/-- Embedding of `open_ports(cluster_name_on_cloud, ports, provider_config)`.
The two config lookups happen first, in source order, and an absent key
raises before the client is built and before any store call; otherwise the
groups are listed and each is processed and written back, per-group HTTP
errors being logged rather than propagated. -/
def open_ports (cluster_name_on_cloud : String) (ports : List String)
    (provider_config : ProviderConfig) (store : Store) : OpenPortsResult :=
  match provider_config.subscription_id with
  | none => ⟨some (.configurationError "subscription_id"), [], store.groups, []⟩
  | some _ =>
    match provider_config.resource_group with
    | none => ⟨some (.configurationError "resource_group"), [], store.groups, []⟩
    | some rg =>
      ⟨none,
        .listGroups rg :: (open_ports_loop (sky_ports_rule_name cluster_name_on_cloud)
          ports rg store.failing store.groups).2.1,
        (open_ports_loop (sky_ports_rule_name cluster_name_on_cloud)
          ports rg store.failing store.groups).1,
        (open_ports_loop (sky_ports_rule_name cluster_name_on_cloud)
          ports rg store.failing store.groups).2.2⟩

/-- An SDK client object: its class name (used in the error message) and
its attribute table, mapping attribute names to the functions they hold. -/
structure SdkClient where
  name : String
  attrs : List (String × String)
deriving DecidableEq, Repr

/-- Python `getattr(client, attr, None)` over the modelled attribute
table. -/
def getattr (client : SdkClient) (attr : String) : Option String :=
  (client.attrs.find? (fun p => p.1 == attr)).map (fun p => p.2)

/-- Embedding of `get_azure_sdk_function`: try the plain attribute, fall
back to the `begin_`-prefixed one, and raise an `AttributeError` whose
message names both candidates when neither exists. -/
def get_azure_sdk_function (client : SdkClient) (function_name : String) :
    Except String String :=
  match getattr client function_name with
  | some f => .ok f
  | none =>
    match getattr client ("begin_" ++ function_name) with
    | some f => .ok f
    | none =>
      .error ("\"" ++ client.name ++ "\" object has no " ++ function_name ++
        " or begin_" ++ function_name ++ " attribute")

/-- The priorities of the Inbound-direction rules of a rule list, in
order. -/
def inbound_priorities (rules : List SecurityRule) : List Int :=
  rules.filterMap (fun r => if r.direction = "Inbound" then some r.priority else none)

/-- The `max_inbound_priority` accumulator after folding a whole rule
list, starting from `acc`. -/
def mipc (rules : List SecurityRule) (acc : Int) : Int :=
  rules.foldl (fun m r => if r.direction = "Inbound" then max m r.priority else m) acc

/-! ### Helper lemmas about the priority fold and the scan loop -/

theorem mipc_nil (acc : Int) : mipc [] acc = acc := rfl

theorem mipc_cons (r : SecurityRule) (rs : List SecurityRule) (acc : Int) :
    mipc (r :: rs) acc = mipc rs (if r.direction = "Inbound" then max acc r.priority else acc) :=
  rfl

theorem le_mipc (rules : List SecurityRule) (acc : Int) : acc ≤ mipc rules acc := by
  induction rules generalizing acc with
  | nil => exact le_refl _
  | cons r rs ih =>
    rw [mipc_cons]
    refine le_trans ?_ (ih _)
    split
    · exact le_max_left _ _
    · exact le_refl _

theorem mipc_ge (rules : List SecurityRule) (acc : Int) (r : SecurityRule)
    (hmem : r ∈ rules) (hdir : r.direction = "Inbound") :
    r.priority ≤ mipc rules acc := by
  induction rules generalizing acc with
  | nil => cases hmem
  | cons x xs ih =>
    rw [mipc_cons]
    rcases List.mem_cons.mp hmem with h | h
    · subst h
      rw [if_pos hdir]
      exact le_trans (le_max_right _ _) (le_mipc _ _)
    · exact ih _ h

theorem mipc_no_inbound (rules : List SecurityRule) (acc : Int)
    (h : ∀ r ∈ rules, r.direction ≠ "Inbound") : mipc rules acc = acc := by
  induction rules generalizing acc with
  | nil => rfl
  | cons x xs ih =>
    rw [mipc_cons, if_neg (h x (List.mem_cons_self _ _))]
    exact ih _ (fun r hr => h r (List.mem_cons_of_mem _ hr))

theorem mipc_append (l1 l2 : List SecurityRule) (acc : Int) :
    mipc (l1 ++ l2) acc = mipc l2 (mipc l1 acc) := by
  simp [mipc, List.foldl_append]

theorem scan_nomatch (rn : String) (ports : List String) (rules : List SecurityRule)
    (acc : Int) (h : ∀ r ∈ rules, r.name ≠ rn) :
    scanRules rn ports rules acc = (rules, mipc rules acc, false) := by
  induction rules generalizing acc with
  | nil => rfl
  | cons x xs ih =>
    have hx : x.name ≠ rn := h x (List.mem_cons_self _ _)
    have hxs : ∀ r ∈ xs, r.name ≠ rn := fun r hr => h r (List.mem_cons_of_mem _ hr)
    simp only [scanRules, mipc_cons]
    rw [if_neg hx, ih _ hxs]

theorem scan_match (rn : String) (ports : List String) (pre : List SecurityRule)
    (r : SecurityRule) (post : List SecurityRule) (acc : Int)
    (hpre : ∀ x ∈ pre, x.name ≠ rn) (hr : r.name = rn) :
    scanRules rn ports (pre ++ r :: post) acc =
      (pre ++ { r with destination_port_ranges := r.destination_port_ranges ++ ports } :: post,
        mipc (pre ++ [r]) acc, true) := by
  induction pre generalizing acc with
  | nil =>
    simp only [List.nil_append, scanRules, mipc_cons, mipc_nil]
    rw [if_pos hr]
  | cons x xs ih =>
    have hx : x.name ≠ rn := hpre x (List.mem_cons_self _ _)
    have hxs : ∀ y ∈ xs, y.name ≠ rn := fun y hy => hpre y (List.mem_cons_of_mem _ hy)
    simp only [List.cons_append, scanRules, mipc_cons, List.append_eq]
    rw [if_neg hx, ih _ hxs]

theorem process_nsg_name (rn : String) (ports : List String) (g : SecurityGroup) :
    (process_nsg rn ports g).name = g.name := by
  rw [process_nsg]
  split <;> rfl

theorem process_nsg_nomatch (rn : String) (ports : List String) (g : SecurityGroup)
    (h : ∀ r ∈ g.security_rules, r.name ≠ rn) :
    process_nsg rn ports g =
      { g with security_rules := g.security_rules ++
          [create_security_rule rn (mipc g.security_rules 0 + 1)
            "Tcp" "Allow" "Inbound" "*" "*" "*" ports] } := by
  rw [process_nsg, scan_nomatch rn ports g.security_rules 0 h]
  rfl

theorem process_nsg_match (rn : String) (ports : List String) (g : SecurityGroup)
    (pre : List SecurityRule) (r : SecurityRule) (post : List SecurityRule)
    (hsplit : g.security_rules = pre ++ r :: post)
    (hpre : ∀ x ∈ pre, x.name ≠ rn) (hr : r.name = rn) :
    process_nsg rn ports g =
      { g with security_rules := pre ++
          { r with destination_port_ranges := r.destination_port_ranges ++ ports } :: post } := by
  rw [process_nsg, hsplit, scan_match rn ports pre r post 0 hpre hr]
  rfl

theorem exists_first_match (rn : String) (rules : List SecurityRule)
    (h : ∃ r ∈ rules, r.name = rn) :
    ∃ pre r post, rules = pre ++ r :: post ∧ (∀ x ∈ pre, x.name ≠ rn) ∧ r.name = rn := by
  induction rules with
  | nil => simp at h
  | cons x xs ih =>
    by_cases hx : x.name = rn
    · exact ⟨[], x, xs, rfl, by simp, hx⟩
    · have hxs : ∃ r ∈ xs, r.name = rn := by
        rcases h with ⟨r, hmem, hname⟩
        rcases List.mem_cons.mp hmem with heq | hmem2
        · subst heq
          exact absurd hname hx
        · exact ⟨r, hmem2, hname⟩
      rcases ih hxs with ⟨pre, r, post, h1, h2, h3⟩
      refine ⟨x :: pre, r, post, by rw [h1, List.cons_append], ?_, h3⟩
      intro y hy
      rcases List.mem_cons.mp hy with heq | hy2
      · subst heq
        exact hx
      · exact h2 y hy2

theorem inbound_priorities_cons (r : SecurityRule) (rs : List SecurityRule) :
    inbound_priorities (r :: rs) =
      (if r.direction = "Inbound" then [r.priority] else []) ++ inbound_priorities rs := by
  by_cases hd : r.direction = "Inbound"
  · simp [inbound_priorities, List.filterMap_cons, hd]
  · simp [inbound_priorities, List.filterMap_cons, hd]

theorem inbound_priorities_append (l1 l2 : List SecurityRule) :
    inbound_priorities (l1 ++ l2) = inbound_priorities l1 ++ inbound_priorities l2 := by
  simp [inbound_priorities, List.filterMap_append]

theorem mem_inbound_priorities (p : Int) (rules : List SecurityRule) :
    p ∈ inbound_priorities rules ↔
      ∃ r ∈ rules, r.direction = "Inbound" ∧ r.priority = p := by
  rw [inbound_priorities, List.mem_filterMap]
  constructor
  · rintro ⟨r, hmem, hr⟩
    by_cases hd : r.direction = "Inbound"
    · rw [if_pos hd] at hr
      exact ⟨r, hmem, hd, Option.some.inj hr⟩
    · rw [if_neg hd] at hr
      cases hr
  · rintro ⟨r, hmem, hd, hp⟩
    exact ⟨r, hmem, by rw [if_pos hd, hp]⟩

/-! ### Concrete example data (the security group of the worked example of
the spec, and variants used to instantiate the theorems) -/

/-- The `default-allow-ssh` inbound rule at priority 100 from the worked
example of the spec. -/
def rule_ssh : SecurityRule :=
  ⟨"default-allow-ssh", "Inbound", 100, "Tcp", "Allow", "*", "*", "*", ["22"]⟩

/-- The group `nsg-A` of the worked example of the spec: a single Inbound
rule at priority 100. -/
def nsgA : SecurityGroup := ⟨"nsg-A", [rule_ssh]⟩

/-- A pre-existing cluster rule `sky-ports-c1` at priority 300. -/
def rule_c1 : SecurityRule :=
  ⟨"sky-ports-c1", "Inbound", 300, "Tcp", "Allow", "*", "*", "*", ["8000"]⟩

/-- A group that already holds the cluster rule `sky-ports-c1`. -/
def nsgB : SecurityGroup := ⟨"nsg-B", [rule_ssh, rule_c1]⟩

/-- An Outbound rule that carries the cluster rule name `sky-ports-c1`. -/
def rule_c1_out : SecurityRule :=
  ⟨"sky-ports-c1", "Outbound", 200, "Tcp", "Allow", "*", "*", "*", ["8000"]⟩

/-- A group whose only `sky-ports-c1` rule is Outbound. -/
def nsgC : SecurityGroup := ⟨"nsg-C", [rule_ssh, rule_c1_out]⟩

/-- A group with no rules at all. -/
def nsgEmpty : SecurityGroup := ⟨"nsg-E", []⟩

/-! ### Claim theorems -/

/-- C1: for every security group in which no rule named
`sky-ports-<clusterId>` exists, `open_ports` creates a new rule whose
priority equals (max priority over all Inbound rules in the group) + 1,
strictly greater than every existing inbound priority; for a group with
no inbound rules the priority of the new rule is 1. -/
theorem open_ports_new_rule_priority (cluster : String) (ports : List String)
    (g : SecurityGroup)
    (h : ∀ r ∈ g.security_rules, r.name ≠ sky_ports_rule_name cluster) :
    ∃ nr : SecurityRule,
      process_nsg (sky_ports_rule_name cluster) ports g =
        { g with security_rules := g.security_rules ++ [nr] } ∧
      nr.priority = mipc g.security_rules 0 + 1 ∧
      (∀ r ∈ g.security_rules, r.direction = "Inbound" → r.priority < nr.priority) ∧
      ((∀ r ∈ g.security_rules, r.direction ≠ "Inbound") → nr.priority = 1) := by
  refine ⟨create_security_rule (sky_ports_rule_name cluster) (mipc g.security_rules 0 + 1)
      "Tcp" "Allow" "Inbound" "*" "*" "*" ports,
    process_nsg_nomatch _ _ _ h, rfl, ?_, ?_⟩
  · intro r hmem hdir
    have hle : r.priority ≤ mipc g.security_rules 0 := mipc_ge _ _ _ hmem hdir
    show r.priority < mipc g.security_rules 0 + 1
    omega
  · intro hno
    show mipc g.security_rules 0 + 1 = 1
    rw [mipc_no_inbound _ _ hno]
    omega

/-- Witness for C1 at the worked example group `nsg-A`. -/
theorem open_ports_new_rule_priority_witness :
    ∃ nr : SecurityRule,
      process_nsg (sky_ports_rule_name "c1") ["22"] nsgA =
        { nsgA with security_rules := nsgA.security_rules ++ [nr] } ∧
      nr.priority = mipc nsgA.security_rules 0 + 1 ∧
      (∀ r ∈ nsgA.security_rules, r.direction = "Inbound" → r.priority < nr.priority) ∧
      ((∀ r ∈ nsgA.security_rules, r.direction ≠ "Inbound") → nr.priority = 1) :=
  open_ports_new_rule_priority "c1" ["22"] nsgA (by decide)

/-- C4: the rule created when no rule named `sky-ports-<clusterId>` exists
has name `sky-ports-<clusterId>`, direction Inbound, protocol Tcp, access
Allow, wildcard source address prefix, source port range and destination
address prefix, destination port ranges exactly the requested ports, and
is appended at the end of the rule list of the group. -/
theorem open_ports_new_rule_fields (cluster : String) (ports : List String)
    (g : SecurityGroup)
    (h : ∀ r ∈ g.security_rules, r.name ≠ sky_ports_rule_name cluster) :
    process_nsg (sky_ports_rule_name cluster) ports g =
      { g with security_rules := g.security_rules ++
          [⟨sky_ports_rule_name cluster, "Inbound", mipc g.security_rules 0 + 1,
            "Tcp", "Allow", "*", "*", "*", ports⟩] } :=
  process_nsg_nomatch _ _ _ h

/-- Witness for C4: the worked example of the spec — `nsg-A` has one Inbound
rule at priority 100, and opening ["8000", "8001-8010"] for cluster `c1`
appends `sky-ports-c1` at priority 101 with exactly those ports. -/
theorem open_ports_new_rule_fields_witness :
    process_nsg (sky_ports_rule_name "c1") ["8000", "8001-8010"] nsgA =
      { nsgA with security_rules := nsgA.security_rules ++
          [⟨"sky-ports-c1", "Inbound", 101, "Tcp", "Allow", "*", "*", "*",
            ["8000", "8001-8010"]⟩] } := by
  rw [open_ports_new_rule_fields "c1" ["8000", "8001-8010"] nsgA (by decide)]
  decide

/-- C3: for every group already containing a rule named
`sky-ports-<clusterId>` (first occurrence `r` after a prefix of
non-matching rules), `open_ports` appends the requested ports to that
destination port set of that rule, changes no other field of it, and adds
no new rule to the group. -/
theorem open_ports_extends_existing_rule (cluster : String) (ports : List String)
    (g : SecurityGroup) (pre : List SecurityRule) (r : SecurityRule)
    (post : List SecurityRule)
    (hsplit : g.security_rules = pre ++ r :: post)
    (hpre : ∀ x ∈ pre, x.name ≠ sky_ports_rule_name cluster)
    (hr : r.name = sky_ports_rule_name cluster) :
    process_nsg (sky_ports_rule_name cluster) ports g =
      { g with security_rules := pre ++
          { r with destination_port_ranges := r.destination_port_ranges ++ ports } :: post } ∧
    ((process_nsg (sky_ports_rule_name cluster) ports g).security_rules).length =
      g.security_rules.length := by
  have h1 := process_nsg_match _ ports g pre r post hsplit hpre hr
  refine ⟨h1, ?_⟩
  rw [h1, hsplit]
  simp

/-- Witness for C3 at a group whose second rule is the cluster rule
`sky-ports-c1`. -/
theorem open_ports_extends_existing_rule_witness :
    process_nsg (sky_ports_rule_name "c1") ["443"] nsgB =
      { nsgB with security_rules := [rule_ssh] ++
          { rule_c1 with destination_port_ranges :=
              rule_c1.destination_port_ranges ++ ["443"] } :: [] } ∧
    ((process_nsg (sky_ports_rule_name "c1") ["443"] nsgB).security_rules).length =
      nsgB.security_rules.length :=
  open_ports_extends_existing_rule "c1" ["443"] nsgB [rule_ssh] rule_c1 []
    (by decide) (by decide) (by decide)

/-- C10: the scan for an existing cluster rule matches on the rule name
alone, ignoring direction — a group whose rule named `sky-ports-<clusterId>`
is Outbound still has the destination ports of that rule extended, and no new
Inbound rule for the cluster appears (every Inbound rule with the cluster
name in the result was already in the group). -/
theorem open_ports_matches_name_ignoring_direction (cluster : String)
    (ports : List String) (g : SecurityGroup) (pre : List SecurityRule)
    (r : SecurityRule) (post : List SecurityRule)
    (hsplit : g.security_rules = pre ++ r :: post)
    (hpre : ∀ x ∈ pre, x.name ≠ sky_ports_rule_name cluster)
    (hr : r.name = sky_ports_rule_name cluster)
    (hdir : r.direction = "Outbound") :
    process_nsg (sky_ports_rule_name cluster) ports g =
      { g with security_rules := pre ++
          { r with destination_port_ranges := r.destination_port_ranges ++ ports } :: post } ∧
    (∀ x ∈ (process_nsg (sky_ports_rule_name cluster) ports g).security_rules,
      x.direction = "Inbound" → x.name = sky_ports_rule_name cluster →
        x ∈ g.security_rules) := by
  have h1 := process_nsg_match _ ports g pre r post hsplit hpre hr
  refine ⟨h1, ?_⟩
  rw [h1]
  intro x hx hdirx hnamex
  rw [hsplit]
  simp only [List.mem_append, List.mem_cons] at hx ⊢
  rcases hx with hx | hx | hx
  · exact Or.inl hx
  · exfalso
    subst hx
    have hcontr : r.direction = "Inbound" := hdirx
    rw [hdir] at hcontr
    exact absurd hcontr (by decide)
  · exact Or.inr (Or.inr hx)

/-- Witness for C10 at a group whose `sky-ports-c1` rule is Outbound. -/
theorem open_ports_matches_name_ignoring_direction_witness :
    process_nsg (sky_ports_rule_name "c1") ["443"] nsgC =
      { nsgC with security_rules := [rule_ssh] ++
          { rule_c1_out with destination_port_ranges :=
              rule_c1_out.destination_port_ranges ++ ["443"] } :: [] } ∧
    (∀ x ∈ (process_nsg (sky_ports_rule_name "c1") ["443"] nsgC).security_rules,
      x.direction = "Inbound" → x.name = sky_ports_rule_name "c1" →
        x ∈ nsgC.security_rules) :=
  open_ports_matches_name_ignoring_direction "c1" ["443"] nsgC [rule_ssh] rule_c1_out []
    (by decide) (by decide) (by decide) (by decide)

/-- C5: if no two inbound rules of a group share a priority before
`open_ports` processes it, no two inbound rules share a priority after —
both the extend-existing-rule branch (which touches no priority or
direction) and the create-new-rule branch (whose new priority strictly
exceeds every inbound priority) preserve the invariant. -/
theorem open_ports_preserves_inbound_priority_nodup (cluster : String)
    (ports : List String) (g : SecurityGroup)
    (h : (inbound_priorities g.security_rules).Nodup) :
    (inbound_priorities
      (process_nsg (sky_ports_rule_name cluster) ports g).security_rules).Nodup := by
  by_cases hex : ∃ r ∈ g.security_rules, r.name = sky_ports_rule_name cluster
  · rcases exists_first_match _ _ hex with ⟨pre, r, post, h1, h2, h3⟩
    rw [process_nsg_match _ ports g pre r post h1 h2 h3]
    have heq : inbound_priorities (pre ++
        { r with destination_port_ranges := r.destination_port_ranges ++ ports } :: post) =
        inbound_priorities (pre ++ r :: post) := by
      simp only [inbound_priorities_append, inbound_priorities_cons]
    show (inbound_priorities (pre ++
        { r with destination_port_ranges := r.destination_port_ranges ++ ports } :: post)).Nodup
    rw [heq, ← h1]
    exact h
  · push_neg at hex
    rw [process_nsg_nomatch _ _ _ hex]
    show (inbound_priorities (g.security_rules ++
        [create_security_rule (sky_ports_rule_name cluster) (mipc g.security_rules 0 + 1)
          "Tcp" "Allow" "Inbound" "*" "*" "*" ports])).Nodup
    rw [inbound_priorities_append]
    have hsingle : inbound_priorities
        [create_security_rule (sky_ports_rule_name cluster) (mipc g.security_rules 0 + 1)
          "Tcp" "Allow" "Inbound" "*" "*" "*" ports] =
        [mipc g.security_rules 0 + 1] := rfl
    rw [hsingle]
    refine List.Nodup.append h (List.nodup_singleton _) ?_
    intro p hp hp2
    rcases (mem_inbound_priorities p g.security_rules).mp hp with ⟨r, hmem, hdir, hpri⟩
    have hle : r.priority ≤ mipc g.security_rules 0 := mipc_ge _ _ _ hmem hdir
    rw [List.mem_singleton] at hp2
    omega

/-- Witness for C5 at the worked-example group `nsg-A`. -/
theorem open_ports_preserves_inbound_priority_nodup_witness :
    (inbound_priorities
      (process_nsg (sky_ports_rule_name "c1") ["22"] nsgA).security_rules).Nodup :=
  open_ports_preserves_inbound_priority_nodup "c1" ["22"] nsgA (by decide)

/-- C6: `open_ports` is not idempotent on the destination port set —
opening the same non-empty ports twice against a group that starts
without the cluster rule leaves the rule named `sky-ports-<clusterId>`
with the ports appended twice, each entry counted twice. -/
theorem open_ports_twice_duplicates_ports (cluster : String) (ports : List String)
    (g : SecurityGroup)
    (h : ∀ r ∈ g.security_rules, r.name ≠ sky_ports_rule_name cluster)
    (hne : ports ≠ []) :
    ∃ nr : SecurityRule,
      (process_nsg (sky_ports_rule_name cluster) ports
          (process_nsg (sky_ports_rule_name cluster) ports g)).security_rules =
        g.security_rules ++ [nr] ∧
      nr.name = sky_ports_rule_name cluster ∧
      nr.destination_port_ranges = ports ++ ports ∧
      (∀ p : String, nr.destination_port_ranges.count p = 2 * ports.count p) := by
  have h1 := process_nsg_nomatch (sky_ports_rule_name cluster) ports g h
  refine ⟨⟨sky_ports_rule_name cluster, "Inbound", mipc g.security_rules 0 + 1,
      "Tcp", "Allow", "*", "*", "*", ports ++ ports⟩, ?_, rfl, rfl, ?_⟩
  · have h2 := process_nsg_match (sky_ports_rule_name cluster) ports
      (process_nsg (sky_ports_rule_name cluster) ports g)
      g.security_rules
      (create_security_rule (sky_ports_rule_name cluster) (mipc g.security_rules 0 + 1)
        "Tcp" "Allow" "Inbound" "*" "*" "*" ports)
      [] (by rw [h1]) h rfl
    rw [h2]
    rfl
  · intro p
    show (ports ++ ports).count p = 2 * ports.count p
    rw [List.count_append]
    omega

/-- Witness for C6: opening ["8080"] twice for cluster `c1` against
`nsg-A` leaves `sky-ports-c1` with ["8080", "8080"]. -/
theorem open_ports_twice_duplicates_ports_witness :
    ∃ nr : SecurityRule,
      (process_nsg (sky_ports_rule_name "c1") ["8080"]
          (process_nsg (sky_ports_rule_name "c1") ["8080"] nsgA)).security_rules =
        nsgA.security_rules ++ [nr] ∧
      nr.name = sky_ports_rule_name "c1" ∧
      nr.destination_port_ranges = ["8080"] ++ ["8080"] ∧
      (∀ p : String, nr.destination_port_ranges.count p = 2 * (["8080"] : List String).count p) :=
  open_ports_twice_duplicates_ports "c1" ["8080"] nsgA (by decide) (by decide)

/-- C2: a platform HTTP error on the `create_or_update` of one group
(here G2 of G1, G2, G3) is logged and does not prevent the other groups
from being updated, and `open_ports` raises nothing to its caller (the
error component is `none` for every store and well-formed config). -/
theorem open_ports_partial_failure_isolated (cluster sub rgn : String)
    (ports : List String) (g1 g2 g3 : SecurityGroup)
    (hn1 : g1.name ≠ g2.name) (hn3 : g3.name ≠ g2.name) :
    open_ports cluster ports ⟨some sub, some rgn⟩ ⟨[g1, g2, g3], [g2.name]⟩ =
      ⟨none,
        [.listGroups rgn, .createOrUpdate rgn g1.name, .createOrUpdate rgn g2.name,
          .createOrUpdate rgn g3.name],
        [process_nsg (sky_ports_rule_name cluster) ports g1, g2,
          process_nsg (sky_ports_rule_name cluster) ports g3],
        [g2.name]⟩ ∧
    (∀ (s r : String) (store : Store),
      (open_ports cluster ports ⟨some s, some r⟩ store).error = none) := by
  constructor
  · have m1 : ¬(g1.name ∈ ([g2.name] : List String)) := by simp [hn1]
    have m2 : g2.name ∈ ([g2.name] : List String) := by simp
    have m3 : ¬(g3.name ∈ ([g2.name] : List String)) := by simp [hn3]
    have hloop : open_ports_loop (sky_ports_rule_name cluster) ports rgn [g2.name]
        [g1, g2, g3] =
        ([process_nsg (sky_ports_rule_name cluster) ports g1, g2,
          process_nsg (sky_ports_rule_name cluster) ports g3],
         [.createOrUpdate rgn g1.name, .createOrUpdate rgn g2.name,
          .createOrUpdate rgn g3.name],
         [g2.name]) := by
      simp only [open_ports_loop, process_nsg_name, if_neg m1, if_pos m2, if_neg m3]
    calc open_ports cluster ports ⟨some sub, some rgn⟩ ⟨[g1, g2, g3], [g2.name]⟩
        = ⟨none,
            .listGroups rgn :: (open_ports_loop (sky_ports_rule_name cluster) ports rgn
              [g2.name] [g1, g2, g3]).2.1,
            (open_ports_loop (sky_ports_rule_name cluster) ports rgn
              [g2.name] [g1, g2, g3]).1,
            (open_ports_loop (sky_ports_rule_name cluster) ports rgn
              [g2.name] [g1, g2, g3]).2.2⟩ := rfl
      _ = _ := by rw [hloop]
  · intro s r store
    rfl

/-- Witness for C2: three concrete groups with the middle one failing. -/
theorem open_ports_partial_failure_isolated_witness :
    open_ports "c1" ["80"] ⟨some "sub", some "rg"⟩ ⟨[nsgA, nsgB, nsgC], [nsgB.name]⟩ =
      ⟨none,
        [.listGroups "rg", .createOrUpdate "rg" nsgA.name, .createOrUpdate "rg" nsgB.name,
          .createOrUpdate "rg" nsgC.name],
        [process_nsg (sky_ports_rule_name "c1") ["80"] nsgA, nsgB,
          process_nsg (sky_ports_rule_name "c1") ["80"] nsgC],
        [nsgB.name]⟩ ∧
    (∀ (s r : String) (store : Store),
      (open_ports "c1" ["80"] ⟨some s, some r⟩ store).error = none) :=
  open_ports_partial_failure_isolated "c1" "sub" "rg" ["80"] nsgA nsgB nsgC
    (by decide) (by decide)

/-- C7: a config missing `subscription_id` or `resource_group` makes
`open_ports` raise a `ConfigurationError` to the caller with no store
call made (the call list is empty) and no partial work (the groups of the
store are untouched). -/
theorem open_ports_missing_config (cluster : String) (ports : List String)
    (cfg : ProviderConfig) (store : Store)
    (h : cfg.subscription_id = none ∨ cfg.resource_group = none) :
    ∃ key, open_ports cluster ports cfg store =
      ⟨some (.configurationError key), [], store.groups, []⟩ := by
  rcases cfg with ⟨sid, rgid⟩
  cases sid with
  | none => exact ⟨"subscription_id", rfl⟩
  | some s =>
    cases rgid with
    | none => exact ⟨"resource_group", rfl⟩
    | some r => simp at h

/-- Witness for C7 with an absent subscription id. -/
theorem open_ports_missing_config_witness :
    ∃ key, open_ports "c1" ["22"] ⟨none, some "rg"⟩ ⟨[nsgA], []⟩ =
      ⟨some (.configurationError key), [], [nsgA], []⟩ :=
  open_ports_missing_config "c1" ["22"] ⟨none, some "rg"⟩ ⟨[nsgA], []⟩ (Or.inl rfl)

/-- C8 counterexample: with empty `ports`, a group that does not yet hold
the cluster rule IS mutated — `open_ports "c1" []` against a store whose
only group has no rules appends a fresh `sky-ports-c1` rule (priority 1,
empty port set), so the resulting groups differ from the original. -/
theorem open_ports_empty_ports_counterexample :
    (open_ports "c1" [] ⟨some "sub", some "rg"⟩ ⟨[nsgEmpty], []⟩).groups ≠ [nsgEmpty] := by
  decide

/-- C8 amended: if `ports` is empty, every group that already contains a
rule named `sky-ports-<clusterId>` is left identical (extending with no
ports changes nothing); a group without such a rule still gains exactly
one new `sky-ports-<clusterId>` rule with an empty destination port set. -/
theorem open_ports_empty_ports_behavior (cluster : String) (g : SecurityGroup) :
    ((∃ r ∈ g.security_rules, r.name = sky_ports_rule_name cluster) →
      process_nsg (sky_ports_rule_name cluster) [] g = g) ∧
    ((∀ r ∈ g.security_rules, r.name ≠ sky_ports_rule_name cluster) →
      process_nsg (sky_ports_rule_name cluster) [] g =
        { g with security_rules := g.security_rules ++
            [⟨sky_ports_rule_name cluster, "Inbound", mipc g.security_rules 0 + 1,
              "Tcp", "Allow", "*", "*", "*", []⟩] }) := by
  constructor
  · intro hex
    rcases exists_first_match _ _ hex with ⟨pre, r, post, hs, hp, hn⟩
    rw [process_nsg_match _ [] g pre r post hs hp hn]
    have hfix : ({ r with destination_port_ranges := r.destination_port_ranges ++ [] } :
        SecurityRule) = r := by
      cases r
      simp
    rw [hfix, ← hs]
  · intro h
    exact process_nsg_nomatch _ _ _ h

/-- Witness for the amended C8 at a group already holding `sky-ports-c1`. -/
theorem open_ports_empty_ports_behavior_witness :
    process_nsg (sky_ports_rule_name "c1") [] nsgB = nsgB :=
  (open_ports_empty_ports_behavior "c1" nsgB).1 (by decide)

/-- An SDK client object with no resolvable attributes, as in an
incompatible SDK version. -/
def clientEmpty : SdkClient := ⟨"NetworkSecurityGroupsOperations", []⟩

/-- C9: `get_azure_sdk_function` returns the operation of the client whether it
is exposed under the plain name or under `begin_<name>`, and when neither
attribute exists it raises an `AttributeError` whose message names both
candidate attribute names. -/
theorem get_azure_sdk_function_resolution (client : SdkClient) (function_name : String) :
    (∀ f, getattr client function_name = some f →
      get_azure_sdk_function client function_name = .ok f) ∧
    (getattr client function_name = none →
      ∀ f, getattr client ("begin_" ++ function_name) = some f →
        get_azure_sdk_function client function_name = .ok f) ∧
    (getattr client function_name = none →
      getattr client ("begin_" ++ function_name) = none →
      ∃ msg, get_azure_sdk_function client function_name = .error msg ∧
        (∃ s t : String, msg = s ++ function_name ++ t) ∧
        (∃ s t : String, msg = s ++ ("begin_" ++ function_name) ++ t)) := by
  refine ⟨?_, ?_, ?_⟩
  · intro f hf
    unfold get_azure_sdk_function
    rw [hf]
  · intro h0 f hf
    unfold get_azure_sdk_function
    rw [h0, hf]
  · intro h0 h1
    refine ⟨"\"" ++ client.name ++ "\" object has no " ++ function_name ++
        " or begin_" ++ function_name ++ " attribute", ?_, ?_, ?_⟩
    · unfold get_azure_sdk_function
      rw [h0, h1]
    · refine ⟨"\"" ++ client.name ++ "\" object has no ",
        " or begin_" ++ function_name ++ " attribute", ?_⟩
      apply String.ext
      simp [String.data_append, List.append_assoc]
    · refine ⟨"\"" ++ client.name ++ "\" object has no " ++ function_name ++ " or ",
        " attribute", ?_⟩
      have hsplit : (" or begin_" : String).data =
          (" or " : String).data ++ ("begin_" : String).data := rfl
      apply String.ext
      simp [String.data_append, List.append_assoc, hsplit]

/-- Witness for C9 at a client exposing neither `create_or_update` nor
`begin_create_or_update`. -/
theorem get_azure_sdk_function_resolution_witness :
    ∃ msg, get_azure_sdk_function clientEmpty "create_or_update" = .error msg ∧
      (∃ s t : String, msg = s ++ "create_or_update" ++ t) ∧
      (∃ s t : String, msg = s ++ ("begin_" ++ "create_or_update") ++ t) :=
  (get_azure_sdk_function_resolution clientEmpty "create_or_update").2.2 rfl rfl
